import Mathlib

/-!
Verification of the procedural arena generation and validation pipeline
(seeded RNG, arena spec generator, structural validator, occupancy grid
baker, BFS connectivity validator, retry/fallback orchestrator).

Modelling conventions, used throughout:

* JavaScript numbers are modelled as exact rationals (`ℚ`).  All the
  arithmetic the proofs rely on involves small integers or simple
  fractions, where IEEE-754 double arithmetic is exact, so this is
  faithful on every concrete input appearing below.
* 32-bit integer operations (`Math.imul`, `^`, `>>>`, `|`, `>>> 0`) are
  modelled on `Nat` with explicit reduction modulo `2^32`; two's
  complement bit patterns agree with values taken modulo `2^32`, so
  xor/or/shift/multiply on the reduced values coincide with the JS
  coercing operators.
* `Math.sqrt(v) ⋛ c` comparisons (the only uses of `sqrt`) are modelled
  by the exact equivalent comparison of `v` with `c^2` (the radicands
  are sums of squares, hence nonnegative, and the doubles involved are
  far from the rounding boundary on every input used here).
* `Math.cos` / `Math.sin` are implementation-defined in JS; they are
  kept as parameters (`MathImpl`).  `Math.PI` is the exact double
  `884279719003555 / 2^48`.
* Unbounded `while` loops are given explicit fuel; at each use the fuel
  is justified (in comments) to dominate the number of iterations the
  JS loop can perform, so the fuelled function agrees with the source.
-/

set_option allowUnsafeReducibility true
attribute [semireducible] Rat.mul Rat.inv Rat.add Rat.sub Rat.neg Rat.div Rat.blt Rat.floor Rat.ceil

namespace Patternisle

/-! ## JS number helpers -/

/-- `Math.floor` on an exact rational. -/
def jsFloor (q : ℚ) : ℤ := ⌊q⌋

/-- `Math.ceil` on an exact rational. -/
def jsCeil (q : ℚ) : ℤ := ⌈q⌉

/-- `Math.round` on an exact rational (JS rounds half-up). -/
def jsRound (q : ℚ) : ℤ := ⌊q + 1/2⌋

/-- `clamp(n, min, max) = Math.max(min, Math.min(max, n))` from the
procgen sources (`generateArenaSpec.ts`, `gridBake`). -/
def clamp (n mn mx : ℚ) : ℚ := max mn (min mx n)

/-- JS `%` (fmod, truncating quotient) for the nonzero-divisor case; the
sources only apply it with positive divisors.  A zero divisor would give
`NaN` in JS; that case is unreachable in the code paths modelled here
and is mapped to `0`. -/
def jsMod (a b : ℚ) : ℚ :=
  if b = 0 then 0
  else a - b * ((if 0 ≤ a / b then (⌊a / b⌋ : ℚ) else (⌈a / b⌉ : ℚ)))

/-- Exact model of the comparison `Math.sqrt v > c` for `v ≥ 0`. -/
def sqrtGt (v c : ℚ) : Bool := if c < 0 then true else decide (v > c ^ 2)

/-- Exact model of the comparison `Math.sqrt v < c` for `v ≥ 0`. -/
def sqrtLt (v c : ℚ) : Bool := if c ≤ 0 then false else decide (v < c ^ 2)

/-- JS array indexing `arr[i]` with a `number` index: `undefined`
(`none`) unless `i` is an integer within range. -/
def jsIndex {α : Type} (arr : List α) (i : ℚ) : Option α :=
  if i.den = 1 ∧ 0 ≤ i.num then arr.get? i.num.toNat else none

/-! ## hash32 (FNV-1a, `themes.ts`; the copy imported by `Rng.ts` from
`shared/rng/hash32` is the same FNV-1a multiplicative string hash). -/

/-- Reduction modulo `2^32`, i.e. the JS `>>> 0` view of a 32-bit op. -/
def toU32 (n : ℕ) : ℕ := n % 4294967296

/-- FNV-1a 32-bit string hash (`hash32`): `h ^= charCode; h = Math.imul(h, 16777619)`
per character, starting from `2166136261`, result `>>> 0`. -/
def hash32 (s : String) : ℕ :=
  s.data.foldl (fun h c => toU32 ((h ^^^ c.toNat) * 16777619)) 2166136261

/-! ## Deterministic RNG (`src/shared/rng/Rng.ts`) -/

/-- Seeded RNG state: `this.state` holds an integer JS number (exact as
a double for every state reached in the claims below). -/
structure Rng where
  state : ℕ
deriving DecidableEq, Repr

/-- `new Rng(seed)` for a string seed: `hash32(s) || 0x12345678`. -/
def Rng.ofSeed (seed : String) : Rng :=
  ⟨if hash32 seed = 0 then 0x12345678 else hash32 seed⟩

/-- The mulberry32 mixing rounds of `nextU32`, applied to the advanced
state `t`.  Each `Math.imul`/xor/shift acts on the state modulo `2^32`. -/
def mulberryMix (t0 : ℕ) : ℕ :=
  let t := toU32 t0
  let t1 := toU32 ((t ^^^ (t >>> 15)) * (t ||| 1))
  let t2 := t1 ^^^ toU32 (t1 + toU32 ((t1 ^^^ (t1 >>> 7)) * (t1 ||| 61)))
  t2 ^^^ (t2 >>> 14)

/-- `nextU32()`: advance the state by the odd constant `0x6d2b79f5` and
mix.  Returns the 32-bit value together with the advanced generator. -/
def Rng.next (r : Rng) : ℕ × Rng :=
  let s := r.state + 0x6d2b79f5
  (mulberryMix s, ⟨s⟩)

/-- `float()`: `nextU32() / 0xffffffff`. -/
def Rng.float (r : Rng) : ℚ × Rng :=
  let v := r.next
  ((v.1 : ℚ) / 4294967295, v.2)

/-- The generator after one `float()` call. -/
def Rng.advance (r : Rng) : Rng := r.float.2

/-- Value returned by the `(n+1)`-st `float()` call on a fresh `r`. -/
def Rng.nthFloat (r : Rng) (n : ℕ) : ℚ := (Rng.advance^[n] r).float.1

/-- `int(min, max)`: swap reversed bounds, then `Math.floor(float() * (max-min+1)) + min`. -/
def Rng.int (r : Rng) (min max : ℚ) : ℚ × Rng :=
  let mn := if max < min then max else min
  let mx := if max < min then min else max
  let f := r.float
  ((⌊f.1 * (mx - mn + 1)⌋ : ℚ) + mn, f.2)

/-- `bool(p)`: `float() < p`. -/
def Rng.bool (r : Rng) (p : ℚ) : Bool × Rng :=
  let f := r.float
  (decide (f.1 < p), f.2)

/-- `pick(arr)`: `arr[int(0, arr.length - 1)]`.  The source throws on an
empty array (never reached by the generator); that case is mapped to
`none` without consuming randomness, mirroring that the `int` call is
not evaluated.  An out-of-range index (possible only when `float()`
returns exactly 1) yields JS `undefined`, i.e. `none`. -/
def Rng.pick {α : Type} (r : Rng) (arr : List α) : Option α × Rng :=
  if arr.length = 0 then (none, r)
  else
    let i := r.int 0 (arr.length - 1)
    (jsIndex arr i.1, i.2)

/-- Claim C9 context: `float()` is claimed to lie in `[0,1)`.  The code
divides by `0xffffffff = 2^32 - 1`, so a mixed output of `0xffffffff`
yields exactly `1`.  For the seed `"s114102724"` this happens on the
third call. -/
theorem rng_float_third_call_eq_one :
    Rng.nthFloat (Rng.ofSeed "s114102724") 2 = 1 := by
  have h : ((Rng.advance^[2] (Rng.ofSeed "s114102724")).next).1 = 4294967295 := by decide
  unfold Rng.nthFloat Rng.float
  simp only [h]
  norm_num

/-! ## Data model (`src/server/procgen/spec.ts`) -/

structure Vec2 where
  x : ℚ
  y : ℚ
deriving DecidableEq, Repr

structure Rect where
  x : ℚ
  y : ℚ
  w : ℚ
  h : ℚ
deriving DecidableEq, Repr

structure SpawnZone where
  teamId : ℕ
  rect : Rect
  facingDeg : ℚ
deriving DecidableEq, Repr

structure ObjectiveZone where
  center : Vec2
  radius : ℚ
deriving DecidableEq, Repr

inductive WallTag where
  | ring
  | spoke
  | perimeter
deriving DecidableEq, Repr

structure WallSegment where
  a : Vec2
  b : Vec2
  thickness : ℚ
  tag : Option WallTag
deriving DecidableEq, Repr

/-- Cover item.  `kind` is `Option` because `rng.pick` can yield JS
`undefined` in the corner case where `float()` returns exactly 1. -/
structure Cover where
  center : Vec2
  radius : ℚ
  kind : Option String
deriving DecidableEq, Repr

/-- `MapSpecV1`.  `rings` is `Option ℚ` because the generator assigns
`opts.rings ?? rng.pick([4, 5])`, and `rng.pick` can yield `undefined`
in the `float() = 1` corner; `ringRadii` is a runtime array (the 4/5
ring generator variant stores 4 or 5 radii in it despite the declared
3-tuple type). -/
structure MapSpecV1 where
  v : ℕ
  seed : String
  size : ℚ
  center : Vec2
  rings : Option ℚ
  ringRadii : List ℚ
  segments : ℚ
  spokes : ℚ
  spawnZones : List SpawnZone
  objective : ObjectiveZone
  wallSegments : List WallSegment
  cover : List Cover
deriving DecidableEq, Repr

/-- Result value `{ ok: true } | { ok: false; errors }` shared by both
validators; the `ok: true` case carries no errors. -/
structure VResult where
  ok : Bool
  errors : List String
deriving DecidableEq, Repr

/-- `errors.length ? { ok: false, errors } : { ok: true }`. -/
def mkVResult (errors : List String) : VResult :=
  if errors.isEmpty then ⟨true, []⟩ else ⟨false, errors⟩

/-! ## Structural validator (`validateSpec`, in `generateValidArena.ts`) -/

/-- The destructuring check `const [r0, r1, r2] = spec.ringRadii;
!(r0 > r1 && r1 > r2 && r2 > 0)`: with fewer than three entries the JS
comparisons involve `undefined` and are false. -/
def ringRadiiDecreasing (radii : List ℚ) : Bool :=
  match radii with
  | r0 :: r1 :: r2 :: _ => decide (r0 > r1) && decide (r1 > r2) && decide (r2 > 0)
  | _ => false

/-- `inBoundsRect` local of `validateSpec`. -/
def inBoundsRect (size x y w h : ℚ) : Bool :=
  decide (0 ≤ x) && decide (0 ≤ y) && decide (x + w ≤ size) && decide (y + h ≤ size)

/-- `validateSpec`: pure structural checks, each pushing one error
string; errors are accumulated in source order.  The `!spec.ringRadii`
null guard cannot fire in the typed model (arrays are always present). -/
def validateSpec (spec : MapSpecV1) : VResult :=
  let errors : List String :=
    (if spec.v ≠ 1 then ["spec.v must be 1"] else []) ++
    (if spec.size ≤ 0 then ["spec.size must be > 0"] else []) ++
    (if spec.rings ≠ some 3 then ["spec.rings must be 3"] else []) ++
    (if spec.ringRadii.length ≠ 3 then ["spec.ringRadii must have 3 entries"] else []) ++
    (if ¬ ringRadiiDecreasing spec.ringRadii then
      ["ringRadii must be strictly decreasing and > 0"] else []) ++
    (if spec.spawnZones.length ≠ 4 then ["must have exactly 4 spawnZones"] else []) ++
    (if (spec.spawnZones.map (fun s => s.teamId)).dedup.length ≠ 4 then
      ["spawnZones must include teamId 0..3 exactly once"] else []) ++
    (spec.spawnZones.foldl (fun acc s =>
      acc ++
      (if ¬ inBoundsRect spec.size s.rect.x s.rect.y s.rect.w s.rect.h then
        ["spawn rect out of bounds for team " ++ toString s.teamId] else []) ++
      (if s.rect.w ≤ 0 ∨ s.rect.h ≤ 0 then
        ["spawn rect invalid size for team " ++ toString s.teamId] else [])) []) ++
    (if spec.objective.radius ≤ 0 then ["objective.radius must be > 0"] else []) ++
    (if spec.objective.center.x ≠ spec.center.x ∨ spec.objective.center.y ≠ spec.center.y then
      ["objective must be centered at spec.center"] else []) ++
    (if spec.wallSegments.length = 0 then ["wallSegments must not be empty"] else [])
  mkVResult errors

theorem mem_mkVResult_errors {a : String} {l : List String} (h : a ∈ l) :
    a ∈ (mkVResult l).errors := by
  unfold mkVResult
  cases l with
  | nil => cases h
  | cons b t => simpa using h

/-- Claim C7: `validateSpec` is a pure total function reporting each
failed check independently: reversed ring radii `[40,60,80,100]` yield
the "strictly decreasing" error, an empty wall-segment list yields the
"must not be empty" error, and a 3-element spawn-zone list yields the
"exactly 4 spawnZones" error. -/
theorem validateSpec_structural_rejections (spec : MapSpecV1) :
    "ringRadii must be strictly decreasing and > 0" ∈
        (validateSpec { spec with ringRadii := [40, 60, 80, 100] }).errors
    ∧ "wallSegments must not be empty" ∈
        (validateSpec { spec with wallSegments := [] }).errors
    ∧ (spec.spawnZones.length = 3 →
        "must have exactly 4 spawnZones" ∈ (validateSpec spec).errors) := by
  refine ⟨?_, ?_, ?_⟩
  · apply mem_mkVResult_errors
    have hdec : ringRadiiDecreasing [40, 60, 80, 100] = false := by decide
    simp [hdec, List.mem_append]
  · apply mem_mkVResult_errors
    simp [List.mem_append]
  · intro h3
    apply mem_mkVResult_errors
    simp [List.mem_append, h3]

/-- Concrete spec with exactly three spawn zones, for the C7 witness. -/
def specThreeSpawns : MapSpecV1 :=
  { v := 1
    seed := "w"
    size := 10
    center := ⟨5, 5⟩
    rings := some 3
    ringRadii := [3, 2, 1]
    segments := 8
    spokes := 2
    spawnZones :=
      [ ⟨0, ⟨1, 1, 2, 2⟩, 0⟩, ⟨1, ⟨7, 1, 2, 2⟩, 90⟩, ⟨2, ⟨1, 7, 2, 2⟩, 180⟩ ]
    objective := ⟨⟨5, 5⟩, 1⟩
    wallSegments := [⟨⟨1, 1⟩, ⟨2, 2⟩, 1, none⟩]
    cover := [] }

theorem validateSpec_structural_rejections_witness :
    specThreeSpawns.spawnZones.length = 3
    ∧ "must have exactly 4 spawnZones" ∈ (validateSpec specThreeSpawns).errors :=
  ⟨by decide, (validateSpec_structural_rejections specThreeSpawns).2.2 (by decide)⟩

/-! ## Occupancy grid builder (`gridBake`) -/

/-- Margin in blocks beyond the outer ring for bake bounds. -/
def ARENA_BAKE_MARGIN : ℚ := 15

/-- `BakedGrid`: the `Uint8Array` bitmap is modelled as a total
function on local cell coordinates (all reads in the sources are
bounds-checked, so only in-bounds values are observable). -/
structure BakedGrid where
  size : ℤ
  cellSize : ℚ
  blocked : ℤ → ℤ → Bool
  origin : Option (ℤ × ℤ)

/-- The bounds computed at the start of `bakeGridFromSpec` (crop
rectangle, full grid size and crop decision), exposed as a value so the
crop-equivalence statements can refer to them. -/
structure BakeParams where
  nFull : ℤ
  minCx : ℤ
  maxCx : ℤ
  minCy : ℤ
  maxCy : ℤ
  useCrop : Bool
  size : ℤ

/-- Crop bounds of `bakeGridFromSpec`.  `ringRadii[0]` on an empty
array would be JS `NaN` (disabling both crop and boundary blocking);
the model uses `headD 0` — every spec considered here has a nonempty
`ringRadii`. -/
def bakeParams (spec : MapSpecV1) (cs : ℚ) : BakeParams :=
  let center := spec.center
  let outer := spec.ringRadii.headD 0
  let nFull := ⌈spec.size / cs⌉
  let arenaRadius := outer + ARENA_BAKE_MARGIN
  let minBx := max 0 (center.x - arenaRadius)
  let maxBx := min spec.size (center.x + arenaRadius)
  let minBy := max 0 (center.y - arenaRadius)
  let maxBy := min spec.size (center.y + arenaRadius)
  let minCx := max 0 ⌊minBx / cs⌋
  let maxCx := min (nFull - 1) ⌊maxBx / cs⌋
  let minCy := max 0 ⌊minBy / cs⌋
  let maxCy := min (nFull - 1) ⌊maxBy / cs⌋
  let useCrop := decide (maxCx - minCx + 1 < nFull) || decide (maxCy - minCy + 1 < nFull)
  let size := if useCrop then max (maxCx - minCx + 1) (maxCy - minCy + 1) else nFull
  ⟨nFull, minCx, maxCx, minCy, maxCy, useCrop, size⟩

/-- The `worldToLocal` closure, cropped branch. -/
def worldToLocalCropped (p : BakeParams) (wx wy : ℤ) : Option (ℤ × ℤ) :=
  let lx := wx - p.minCx
  let ly := wy - p.minCy
  if lx < 0 ∨ ly < 0 ∨ lx ≥ p.size ∨ ly ≥ p.size then none else some (lx, ly)

/-- The `worldToLocal` closure, uncropped branch (`size` is the full
grid size there). -/
def worldToLocalFull (size : ℤ) (wx wy : ℤ) : Option (ℤ × ℤ) :=
  if wx < 0 ∨ wy < 0 ∨ wx ≥ size ∨ wy ≥ size then none else some (wx, wy)

/-- `setBlockedLocal`: out-of-bounds writes are dropped. -/
def setBlockedLocal (size : ℤ) (bl : ℤ → ℤ → Bool) (lx ly : ℤ) : ℤ → ℤ → Bool :=
  if lx < 0 ∨ ly < 0 ∨ lx ≥ size ∨ ly ≥ size then bl
  else fun a b => if a = lx ∧ b = ly then true else bl a b

/-- Ascending run of `n` integers starting at `lo` (used to model the
integer-counted `for` loops). -/
def intRangeAux (lo : ℤ) : ℕ → List ℤ
  | 0 => []
  | n + 1 => lo :: intRangeAux (lo + 1) n

/-- Offsets `-t .. t` of the thickness stamp loops. -/
def stampOffsets (t : ℤ) : List ℤ := intRangeAux (-t) (2 * t + 1).toNat

/-- The two nested stamp loops (`oy` outer, `ox` inner), flattened to
the list of stamped local positions around `(lx, ly)`. -/
def stampPositions (t lx ly : ℤ) : List (ℤ × ℤ) :=
  (stampOffsets t).flatMap (fun oy => (stampOffsets t).map (fun ox => (lx + ox, ly + oy)))

/-- The `stamp` closure of `rasterSegment`: translate the world cell to
local coordinates (dropping the whole stamp when the centre is outside
the grid / crop), then set a `(2t+1) × (2t+1)` block. -/
def stampAt (size : ℤ) (w2l : ℤ → ℤ → Option (ℤ × ℤ)) (t : ℤ)
    (bl : ℤ → ℤ → Bool) (w : ℤ × ℤ) : ℤ → ℤ → Bool :=
  match w2l w.1 w.2 with
  | none => bl
  | some loc =>
      (stampPositions t loc.1 loc.2).foldl (fun bl q => setBlockedLocal size bl q.1 q.2) bl

/-- One step of the Bresenham loop; returns the stepped points.  The
fuel dominates the iteration count: every iteration moves `x` or `y`
one unit toward the target (at least one branch fires, since `e2 < dy ≤
0 ≤ dx < e2` is contradictory), and the standard Bresenham error
invariant keeps the walk from overshooting, so at most `dx + |dy| + 1`
points are emitted. -/
def bresPointsAux (tx ty dx dy sx sy : ℤ) : ℕ → ℤ → ℤ → ℤ → List (ℤ × ℤ)
  | 0, _, _, _ => []
  | fuel + 1, x, y, err =>
    if x = tx ∧ y = ty then [(x, y)]
    else
      let e2 := 2 * err
      let errA := if e2 ≥ dy then err + dy else err
      let xA := if e2 ≥ dy then x + sx else x
      let errB := if e2 ≤ dx then errA + dx else errA
      let yB := if e2 ≤ dx then y + sy else y
      (x, y) :: bresPointsAux tx ty dx dy sx sy fuel xA yB errB

/-- The world-cell points stepped by `rasterSegment`'s Bresenham loop
between the rounded endpoints of a wall segment. -/
def bresPoints (cs : ℚ) (seg : WallSegment) : List (ℤ × ℤ) :=
  let x0 := jsRound (seg.a.x / cs)
  let y0 := jsRound (seg.a.y / cs)
  let tx := jsRound (seg.b.x / cs)
  let ty := jsRound (seg.b.y / cs)
  let dx := |tx - x0|
  let sx : ℤ := if x0 < tx then 1 else -1
  let dy := -|ty - y0|
  let sy : ℤ := if y0 < ty then 1 else -1
  bresPointsAux tx ty dx dy sx sy ((dx - dy).toNat + 1) x0 y0 (dx + dy)

/-- Stamp radius of a segment in cell units:
`Math.max(1, Math.round(seg.thickness / cs))`. -/
def segT (cs : ℚ) (seg : WallSegment) : ℤ := max 1 (jsRound (seg.thickness / cs))

/-- `rasterSegment`: stamp a square of side `2t+1` (thickness in cell
units, minimum 1) at every Bresenham point of the segment. -/
def rasterSegment (size : ℤ) (cs : ℚ) (w2l : ℤ → ℤ → Option (ℤ × ℤ))
    (seg : WallSegment) (bl : ℤ → ℤ → Bool) : ℤ → ℤ → Bool :=
  (bresPoints cs seg).foldl (stampAt size w2l (segT cs seg)) bl

/-- The boundary pass of `bakeGridFromSpec`: every cell farther than
`outer/cs + 2` from the centre (in cell units) is blocked.  The
`Math.sqrt(dx*dx+dy*dy) > outerCells` comparison is modelled exactly by
`sqrtGt`. -/
def boundaryBlocked (spec : MapSpecV1) (cs : ℚ) (p : BakeParams) : ℤ → ℤ → Bool :=
  fun lx ly =>
    if lx < 0 ∨ ly < 0 ∨ lx ≥ p.size ∨ ly ≥ p.size then false
    else
      let wx := if p.useCrop then p.minCx + lx else lx
      let wy := if p.useCrop then p.minCy + ly else ly
      let dxq : ℚ := (wx : ℚ) - spec.center.x / cs
      let dyq : ℚ := (wy : ℚ) - spec.center.y / cs
      sqrtGt (dxq * dxq + dyq * dyq) (spec.ringRadii.headD 0 / cs + 2)

/-- `bakeGridFromSpec`: boundary pass, then rasterize every wall
segment; records the crop origin when the crop is active. -/
def bakeGridFromSpec (spec : MapSpecV1) (cellSize : ℚ) : BakedGrid :=
  let p := bakeParams spec cellSize
  let w2l := fun wx wy =>
    if p.useCrop then worldToLocalCropped p wx wy else worldToLocalFull p.size wx wy
  let bl := spec.wallSegments.foldl
    (fun bl seg => rasterSegment p.size cellSize w2l seg bl)
    (boundaryBlocked spec cellSize p)
  ⟨p.size, cellSize, bl, if p.useCrop then some (p.minCx, p.minCy) else none⟩

/-- Reference grid for the crop-equivalence claim: the same bake with
the crop disabled ("an uncropped grid built from the same spec and cell
size" in the specification's words). -/
def bakeGridUncropped (spec : MapSpecV1) (cellSize : ℚ) : BakedGrid :=
  let p0 := bakeParams spec cellSize
  let p : BakeParams := { p0 with useCrop := false, size := p0.nFull }
  let bl := spec.wallSegments.foldl
    (fun bl seg => rasterSegment p.size cellSize (worldToLocalFull p.size) seg bl)
    (boundaryBlocked spec cellSize p)
  ⟨p.size, cellSize, bl, none⟩

def clampZ (n mn mx : ℤ) : ℤ := max mn (min mx n)

/-- `toCell`: world point to (clamped) local cell, shifting by the crop
origin when present. -/
def toCell (g : BakedGrid) (pt : Vec2) : ℤ × ℤ :=
  let wx := ⌊pt.x / g.cellSize⌋
  let wy := ⌊pt.y / g.cellSize⌋
  match g.origin with
  | some o => (clampZ (wx - o.1) 0 (g.size - 1), clampZ (wy - o.2) 0 (g.size - 1))
  | none => (clampZ wx 0 (g.size - 1), clampZ wy 0 (g.size - 1))

/-- Concrete spec for the crop-equivalence counterexample: a single
degenerate wall segment whose rounded cell `(1, 10)` lies inside the
full grid but outside the crop, with a thickness stamp (`t = 2`) that
reaches the walkable in-crop cell `(3, 10)`. -/
def cropClipSpec : MapSpecV1 :=
  { v := 1
    seed := "crop"
    size := 100
    center := ⟨50, 50⟩
    rings := some 3
    ringRadii := [25, 20, 15]
    segments := 8
    spokes := 0
    spawnZones := []
    objective := ⟨⟨50, 50⟩, 5⟩
    wallSegments := [⟨⟨5, 50⟩, ⟨5, 50⟩, 8, some WallTag.spoke⟩]
    cover := [] }

example : (bakeGridFromSpec cropClipSpec 5).origin = some (2, 2) := by decide
example : (bakeGridFromSpec cropClipSpec 5).size = 17 := by decide
example : (bakeGridFromSpec cropClipSpec 5).blocked 1 8 = false := by decide
example : (bakeGridUncropped cropClipSpec 5).blocked 3 10 = true := by decide
example : (bakeGridUncropped cropClipSpec 5).size = 20 := by decide

/-! ## Connectivity validator (`validateConnectivity`) -/

/-- Fixed cell size for connectivity validation. -/
def CONNECTIVITY_CELL_SIZE : ℚ := 1

/-- BFS neighbour offsets, in source order. -/
def neighborOffsets : List (ℤ × ℤ) := [(1, 0), (-1, 0), (0, 1), (0, -1)]

/-- The 3×3 search offsets around a spawn centre (`dy` outer loop, `dx`
inner loop), in source order. -/
def offsets3x3 : List (ℤ × ℤ) :=
  [(-1, -1), (0, -1), (1, -1), (-1, 0), (0, 0), (1, 0), (-1, 1), (0, 1), (1, 1)]

/-- BFS state: the `seen` bitmap (as a function) and the FIFO queue
(the `qx`/`qy` arrays with head/tail counters). -/
abbrev BfsState := (ℤ → ℤ → Bool) × List (ℤ × ℤ)

/-- `push(x, y)`: skip seen or blocked cells, otherwise mark seen and
enqueue. -/
def bfsPush (g : BakedGrid) (st : BfsState) (x y : ℤ) : BfsState :=
  if st.1 x y then st
  else if g.blocked x y then st
  else (fun a b => if a = x ∧ b = y then true else st.1 a b, st.2 ++ [(x, y)])

/-- The BFS `while (qh < qt)` loop.  The fuel `g.size²` dominates the
iteration count: each iteration dequeues one entry, every enqueued cell
is in bounds and marked seen on push, so at most `size²` cells are ever
enqueued and the loop runs at most `size²` times; if the fuel is spent
the queue is provably empty and the source loop would also have
returned `false`. -/
def bfsLoop (g : BakedGrid) (target : ℤ × ℤ) : ℕ → BfsState → Bool
  | 0, _ => false
  | fuel + 1, st =>
    match st.2 with
    | [] => false
    | (x, y) :: rest =>
      if x = target.1 ∧ y = target.2 then true
      else
        let st1 := neighborOffsets.foldl
          (fun st d =>
            let nx := x + d.1
            let ny := y + d.2
            if nx < 0 ∨ ny < 0 ∨ nx ≥ g.size ∨ ny ≥ g.size then st
            else bfsPush g st nx ny)
          (st.1, rest)
        bfsLoop g target fuel st1

/-- `runBFS(startX, startY)`: fresh seen/queue state, push the start,
run the loop. -/
def runBFS (g : BakedGrid) (target : ℤ × ℤ) (startX startY : ℤ) : Bool :=
  bfsLoop g target (g.size.toNat * g.size.toNat)
    (bfsPush g (fun _ _ => false, []) startX startY)

/-- The per-spawn check: `toCell` of the spawn rectangle's centre, then
search the 3×3 neighbourhood (in source order) for an in-bounds,
walkable cell from which BFS reaches the objective cell; `found`
becomes true at the first BFS success and the loops stop. -/
def spawnConnected (g : BakedGrid) (target : ℤ × ℤ) (s : SpawnZone) : Bool :=
  let sc := toCell g ⟨s.rect.x + s.rect.w / 2, s.rect.y + s.rect.h / 2⟩
  offsets3x3.any fun d =>
    let nx := sc.1 + d.1
    let ny := sc.2 + d.2
    if nx < 0 ∨ ny < 0 ∨ nx ≥ g.size ∨ ny ≥ g.size then false
    else if g.blocked nx ny then false
    else runBFS g target nx ny

/-- `validateConnectivity`: bake the grid at cell size 1, check every
spawn zone, one error string per unreachable spawn. -/
def validateConnectivity (spec : MapSpecV1) : VResult :=
  let g := bakeGridFromSpec spec CONNECTIVITY_CELL_SIZE
  let target := toCell g spec.objective.center
  let errors := spec.spawnZones.foldl
    (fun acc s =>
      if spawnConnected g target s then acc
      else acc ++ ["team " ++ toString s.teamId ++ " spawn cannot reach objective (cellSize=1)"])
    []
  mkVResult errors

/-- Small all-open spec used to exercise the validator. -/
def tinyOpenSpec : MapSpecV1 :=
  { v := 1
    seed := "tiny"
    size := 8
    center := ⟨4, 4⟩
    rings := some 3
    ringRadii := [3, 2, 1]
    segments := 4
    spokes := 0
    spawnZones := [⟨0, ⟨0, 0, 2, 2⟩, 0⟩]
    objective := ⟨⟨4, 4⟩, 1⟩
    wallSegments := []
    cover := [] }

example : (validateConnectivity tinyOpenSpec).ok = true := by decide

/-! ## C1 / C8: characterization of the connectivity validator -/

theorem mkVResult_errors (l : List String) : (mkVResult l).errors = l := by
  cases l <;> simp [mkVResult]

theorem mkVResult_ok (l : List String) : (mkVResult l).ok = l.isEmpty := by
  cases l <;> simp [mkVResult]

/-- The error-accumulating loop collects exactly one message per
element failing the check, in order. -/
theorem foldl_error_collect {α : Type} (p : α → Bool) (m : α → String) :
    ∀ (l : List α) (acc : List String),
      l.foldl (fun acc s => if p s then acc else acc ++ [m s]) acc
        = acc ++ (l.filter (fun s => ! p s)).map m := by
  intro l
  induction l with
  | nil => intro acc; simp
  | cons a t ih =>
    intro acc
    by_cases hp : p a = true
    · simp [List.foldl_cons, hp, ih]
    · simp only [Bool.not_eq_true] at hp
      simp [List.foldl_cons, hp, ih]

/-- Cell of the spawn rectangle's geometric centre in the
connectivity grid (built at cell size 1). -/
def spawnCenterCell (spec : MapSpecV1) (s : SpawnZone) : ℤ × ℤ :=
  toCell (bakeGridFromSpec spec CONNECTIVITY_CELL_SIZE)
    ⟨s.rect.x + s.rect.w / 2, s.rect.y + s.rect.h / 2⟩

/-- Cell of the objective centre in the connectivity grid. -/
def objectiveCell (spec : MapSpecV1) : ℤ × ℤ :=
  toCell (bakeGridFromSpec spec CONNECTIVITY_CELL_SIZE) spec.objective.center

theorem guarded_bfs_eq_true {c1 c2 : Prop} [Decidable c1] [Decidable c2] {r : Bool} :
    ((if c1 then false else if c2 then false else r) = true) ↔ (¬ c1 ∧ ¬ c2 ∧ r = true) := by
  split_ifs with h1 h2 <;> simp_all

/-- Unfolding of the per-spawn 3×3-then-BFS search. -/
theorem spawnConnected_iff (spec : MapSpecV1) (s : SpawnZone) :
    spawnConnected (bakeGridFromSpec spec CONNECTIVITY_CELL_SIZE) (objectiveCell spec) s = true ↔
      ∃ d ∈ offsets3x3,
        0 ≤ (spawnCenterCell spec s).1 + d.1 ∧
        0 ≤ (spawnCenterCell spec s).2 + d.2 ∧
        (spawnCenterCell spec s).1 + d.1 < (bakeGridFromSpec spec CONNECTIVITY_CELL_SIZE).size ∧
        (spawnCenterCell spec s).2 + d.2 < (bakeGridFromSpec spec CONNECTIVITY_CELL_SIZE).size ∧
        (bakeGridFromSpec spec CONNECTIVITY_CELL_SIZE).blocked
          ((spawnCenterCell spec s).1 + d.1) ((spawnCenterCell spec s).2 + d.2) = false ∧
        runBFS (bakeGridFromSpec spec CONNECTIVITY_CELL_SIZE) (objectiveCell spec)
          ((spawnCenterCell spec s).1 + d.1) ((spawnCenterCell spec s).2 + d.2) = true := by
  unfold spawnConnected
  rw [List.any_eq_true]
  refine exists_congr fun d => and_congr_right fun _ => ?_
  rw [show (toCell (bakeGridFromSpec spec CONNECTIVITY_CELL_SIZE)
        ⟨s.rect.x + s.rect.w / 2, s.rect.y + s.rect.h / 2⟩) = spawnCenterCell spec s from rfl]
  rw [guarded_bfs_eq_true]
  constructor
  · rintro ⟨hb, hblk, hr⟩
    push_neg at hb
    obtain ⟨h1, h2, h3, h4⟩ := hb
    exact ⟨h1, h2, h3, h4, by simpa using hblk, hr⟩
  · rintro ⟨h1, h2, h3, h4, hblk, hr⟩
    refine ⟨?_, ?_, hr⟩
    · push_neg
      exact ⟨h1, h2, h3, h4⟩
    · simp [hblk]

/-- Claim C1: `validateConnectivity` builds its grid at cell size
exactly 1, and returns `ok` iff every spawn zone has, in the 3×3 cell
neighbourhood of its rectangle's centre cell, an in-bounds walkable
cell from which the 4-connected BFS over walkable cells of that
cell-size-1 grid reaches the objective's cell (so with 4 spawn zones,
all 4 must reach the objective). -/
theorem validateConnectivity_ok_iff (spec : MapSpecV1) :
    (validateConnectivity spec).ok = true ↔
      ∀ s ∈ spec.spawnZones,
        ∃ d ∈ offsets3x3,
          0 ≤ (spawnCenterCell spec s).1 + d.1 ∧
          0 ≤ (spawnCenterCell spec s).2 + d.2 ∧
          (spawnCenterCell spec s).1 + d.1 < (bakeGridFromSpec spec CONNECTIVITY_CELL_SIZE).size ∧
          (spawnCenterCell spec s).2 + d.2 < (bakeGridFromSpec spec CONNECTIVITY_CELL_SIZE).size ∧
          (bakeGridFromSpec spec CONNECTIVITY_CELL_SIZE).blocked
            ((spawnCenterCell spec s).1 + d.1) ((spawnCenterCell spec s).2 + d.2) = false ∧
          runBFS (bakeGridFromSpec spec CONNECTIVITY_CELL_SIZE) (objectiveCell spec)
            ((spawnCenterCell spec s).1 + d.1) ((spawnCenterCell spec s).2 + d.2) = true := by
  unfold validateConnectivity
  dsimp only
  rw [foldl_error_collect, mkVResult_ok]
  simp only [List.nil_append, List.isEmpty_iff, List.map_eq_nil_iff, List.filter_eq_nil_iff,
    Bool.not_eq_eq_eq_not, Bool.not_true, Bool.not_eq_false]
  exact forall₂_congr fun s _ => spawnConnected_iff spec s

/-- Claim C8: the error list of `validateConnectivity` is exactly one
message per unreachable spawn zone (in order), and has no entry for
spawn zones that do reach the objective. -/
theorem validateConnectivity_errors_eq (spec : MapSpecV1) :
    (validateConnectivity spec).errors =
      (spec.spawnZones.filter
        (fun s => ! spawnConnected (bakeGridFromSpec spec CONNECTIVITY_CELL_SIZE)
          (objectiveCell spec) s)).map
        (fun s => "team " ++ toString s.teamId ++ " spawn cannot reach objective (cellSize=1)") := by
  unfold validateConnectivity
  dsimp only
  rw [foldl_error_collect, mkVResult_errors]
  simp [objectiveCell]

/-! ## C6: crop (in)equivalence of the grid builder -/

/-- In-bounds predicate for a local grid cell. -/
def cellIn (size a b : ℤ) : Prop := 0 ≤ a ∧ 0 ≤ b ∧ a < size ∧ b < size

instance (size a b : ℤ) : Decidable (cellIn size a b) := by unfold cellIn; infer_instance

theorem setBlockedLocal_eq_true {size : ℤ} {bl : ℤ → ℤ → Bool} {x y a b : ℤ} :
    (setBlockedLocal size bl x y) a b = true ↔
      bl a b = true ∨ (a = x ∧ b = y ∧ cellIn size a b) := by
  unfold setBlockedLocal cellIn
  split_ifs with hg
  · constructor
    · exact fun h => Or.inl h
    · rintro (h | ⟨rfl, rfl, h1, h2, h3, h4⟩)
      · exact h
      · exact absurd hg (by push_neg; omega)
  · push_neg at hg
    by_cases hab : a = x ∧ b = y
    · obtain ⟨rfl, rfl⟩ := hab
      simp
      omega
    · simp [hab]
      tauto

/-- Characterization of a fold of monotone one-cell set operations. -/
theorem foldl_set_or {ε : Type} (P : ε → ℤ → ℤ → Prop)
    (f : (ℤ → ℤ → Bool) → ε → (ℤ → ℤ → Bool))
    (hf : ∀ bl e a b, (f bl e) a b = true ↔ bl a b = true ∨ P e a b) :
    ∀ (l : List ε) (bl : ℤ → ℤ → Bool) (a b : ℤ),
      (l.foldl f bl) a b = true ↔ bl a b = true ∨ ∃ e ∈ l, P e a b := by
  intro l
  induction l with
  | nil => intro bl a b; simp
  | cons e t ih =>
    intro bl a b
    rw [List.foldl_cons, ih, hf]
    constructor
    · rintro ((h | h) | ⟨e1, he1, hp⟩)
      · exact Or.inl h
      · exact Or.inr ⟨e, List.mem_cons_self e t, h⟩
      · exact Or.inr ⟨e1, List.mem_cons_of_mem e he1, hp⟩
    · rintro (h | ⟨e1, he1, hp⟩)
      · exact Or.inl (Or.inl h)
      · rcases List.mem_cons.mp he1 with rfl | he2
        · exact Or.inl (Or.inr hp)
        · exact Or.inr ⟨e1, he2, hp⟩

theorem mem_intRangeAux : ∀ (n : ℕ) (lo o : ℤ), o ∈ intRangeAux lo n ↔ lo ≤ o ∧ o < lo + n := by
  intro n
  induction n with
  | zero => intro lo o; simp [intRangeAux]
  | succ m ih =>
    intro lo o
    simp [intRangeAux, ih (lo + 1) o]
    omega

theorem mem_stampOffsets {t o : ℤ} : o ∈ stampOffsets t ↔ -t ≤ o ∧ o ≤ t := by
  unfold stampOffsets
  rw [mem_intRangeAux]
  omega

theorem mem_stampPositions {t lx ly : ℤ} {q : ℤ × ℤ} :
    q ∈ stampPositions t lx ly ↔ |q.1 - lx| ≤ t ∧ |q.2 - ly| ≤ t := by
  unfold stampPositions
  simp only [List.mem_flatMap, List.mem_map]
  constructor
  · rintro ⟨oy, hoy, ox, hox, rfl⟩
    rw [mem_stampOffsets] at hoy hox
    constructor <;> rw [abs_le] <;> simp <;> omega
  · rintro ⟨h1, h2⟩
    rw [abs_le] at h1 h2
    refine ⟨q.2 - ly, mem_stampOffsets.mpr (by omega),
      q.1 - lx, mem_stampOffsets.mpr (by omega), by simp⟩

theorem stampAt_eq_true {size : ℤ} {w2l : ℤ → ℤ → Option (ℤ × ℤ)} {t : ℤ}
    {bl : ℤ → ℤ → Bool} {w : ℤ × ℤ} {a b : ℤ} :
    (stampAt size w2l t bl w) a b = true ↔
      bl a b = true ∨ ∃ loc, w2l w.1 w.2 = some loc ∧
        |a - loc.1| ≤ t ∧ |b - loc.2| ≤ t ∧ cellIn size a b := by
  unfold stampAt
  cases hw : w2l w.1 w.2 with
  | none => simp
  | some loc =>
    have hch := foldl_set_or
      (fun (q : ℤ × ℤ) (a b : ℤ) => a = q.1 ∧ b = q.2 ∧ cellIn size a b)
      (fun bl q => setBlockedLocal size bl q.1 q.2)
      (fun bl e a b => setBlockedLocal_eq_true)
      (stampPositions t loc.1 loc.2) bl a b
    dsimp only
    rw [hch]
    constructor
    · rintro (h | ⟨q, hq, rfl, rfl, hin⟩)
      · exact Or.inl h
      · rw [mem_stampPositions] at hq
        exact Or.inr ⟨loc, rfl, hq.1, hq.2, hin⟩
    · rintro (h | ⟨loc1, hloc1, h1, h2, hin⟩)
      · exact Or.inl h
      · obtain rfl := Option.some_injective _ hloc1
        exact Or.inr ⟨(a, b), mem_stampPositions.mpr ⟨h1, h2⟩, rfl, rfl, hin⟩

theorem rasterSegment_eq_true {size : ℤ} {cs : ℚ} {w2l : ℤ → ℤ → Option (ℤ × ℤ)}
    {seg : WallSegment} {bl : ℤ → ℤ → Bool} {a b : ℤ} :
    (rasterSegment size cs w2l seg bl) a b = true ↔
      bl a b = true ∨ ∃ w ∈ bresPoints cs seg, ∃ loc, w2l w.1 w.2 = some loc ∧
        |a - loc.1| ≤ segT cs seg ∧ |b - loc.2| ≤ segT cs seg ∧ cellIn size a b := by
  unfold rasterSegment
  exact foldl_set_or
    (fun (w : ℤ × ℤ) (a b : ℤ) => ∃ loc, w2l w.1 w.2 = some loc ∧
      |a - loc.1| ≤ segT cs seg ∧ |b - loc.2| ≤ segT cs seg ∧ cellIn size a b)
    (stampAt size w2l (segT cs seg))
    (fun bl w a b => stampAt_eq_true)
    (bresPoints cs seg) bl a b

theorem bake_fold_eq_true {spec : MapSpecV1} {cs : ℚ} {size : ℤ}
    {w2l : ℤ → ℤ → Option (ℤ × ℤ)} {base : ℤ → ℤ → Bool} {a b : ℤ} :
    (spec.wallSegments.foldl (fun bl seg => rasterSegment size cs w2l seg bl) base) a b = true ↔
      base a b = true ∨ ∃ seg ∈ spec.wallSegments, ∃ w ∈ bresPoints cs seg, ∃ loc,
        w2l w.1 w.2 = some loc ∧
        |a - loc.1| ≤ segT cs seg ∧ |b - loc.2| ≤ segT cs seg ∧ cellIn size a b := by
  exact foldl_set_or
    (fun (seg : WallSegment) (a b : ℤ) => ∃ w ∈ bresPoints cs seg, ∃ loc,
      w2l w.1 w.2 = some loc ∧
      |a - loc.1| ≤ segT cs seg ∧ |b - loc.2| ≤ segT cs seg ∧ cellIn size a b)
    (fun bl seg => rasterSegment size cs w2l seg bl)
    (fun bl seg a b => rasterSegment_eq_true)
    spec.wallSegments base a b

theorem worldToLocalCropped_eq_some {p : BakeParams} {wx wy : ℤ} {loc : ℤ × ℤ} :
    worldToLocalCropped p wx wy = some loc ↔
      loc = (wx - p.minCx, wy - p.minCy) ∧
      p.minCx ≤ wx ∧ wx < p.minCx + p.size ∧ p.minCy ≤ wy ∧ wy < p.minCy + p.size := by
  unfold worldToLocalCropped
  dsimp only
  split_ifs with hg
  · constructor
    · intro h
      exact h.elim
    · rintro ⟨rfl, h1, h2, h3, h4⟩
      exact absurd hg (by push_neg; omega)
  · push_neg at hg
    constructor
    · rintro h
      obtain rfl := (Option.some_injective _ h).symm
      exact ⟨rfl, by omega, by omega, by omega, by omega⟩
    · rintro ⟨rfl, h1, h2, h3, h4⟩
      rfl

theorem worldToLocalFull_eq_some {size wx wy : ℤ} {loc : ℤ × ℤ} :
    worldToLocalFull size wx wy = some loc ↔
      loc = (wx, wy) ∧ 0 ≤ wx ∧ wx < size ∧ 0 ≤ wy ∧ wy < size := by
  unfold worldToLocalFull
  split_ifs with hg
  · constructor
    · intro h
      exact h.elim
    · rintro ⟨rfl, h1, h2, h3, h4⟩
      exact absurd hg (by push_neg; omega)
  · push_neg at hg
    constructor
    · rintro h
      obtain rfl := (Option.some_injective _ h).symm
      exact ⟨rfl, by omega, by omega, by omega, by omega⟩
    · rintro ⟨rfl, h1, h2, h3, h4⟩
      rfl

theorem bakeParams_minCx_nonneg (spec : MapSpecV1) (cs : ℚ) :
    0 ≤ (bakeParams spec cs).minCx := by
  unfold bakeParams
  exact le_max_left 0 _

theorem bakeParams_minCy_nonneg (spec : MapSpecV1) (cs : ℚ) :
    0 ≤ (bakeParams spec cs).minCy := by
  unfold bakeParams
  exact le_max_left 0 _

/-- The cropped grid's bitmap is the wall fold over the crop
`worldToLocal` on top of the boundary pass. -/
theorem bakeGridFromSpec_blocked (spec : MapSpecV1) (cs : ℚ)
    (hc : (bakeParams spec cs).useCrop = true) (a b : ℤ) :
    (bakeGridFromSpec spec cs).blocked a b =
      (spec.wallSegments.foldl
        (fun bl seg => rasterSegment (bakeParams spec cs).size cs
          (fun wx wy => worldToLocalCropped (bakeParams spec cs) wx wy) seg bl)
        (boundaryBlocked spec cs (bakeParams spec cs))) a b := by
  unfold bakeGridFromSpec
  simp only [hc, if_true]

theorem bakeGridUncropped_blocked (spec : MapSpecV1) (cs : ℚ) (a b : ℤ) :
    (bakeGridUncropped spec cs).blocked a b =
      (spec.wallSegments.foldl
        (fun bl seg => rasterSegment (bakeParams spec cs).nFull cs
          (worldToLocalFull (bakeParams spec cs).nFull) seg bl)
        (boundaryBlocked spec cs
          { bakeParams spec cs with useCrop := false, size := (bakeParams spec cs).nFull })) a b
      := rfl

/-- Claim C6, amended: for a spec whose bake uses the crop, every cell
of the cropped grid whose world cell also lies in the uncropped grid is
classified identically to that world cell, provided every Bresenham
point of every wall segment that lies in the full grid and within its
stamp radius of the crop rectangle actually lies inside the crop
rectangle (the source translates stamp centres to local coordinates
before applying the thickness offsets, so a stamp centred outside the
crop contributes nothing to it, while the uncropped grid does stamp
those cells). -/
theorem bake_crop_equivalence_amended (spec : MapSpecV1) (cs : ℚ) (lx ly : ℤ)
    (hc : (bakeParams spec cs).useCrop = true)
    (hbox : (bakeParams spec cs).minCx + (bakeParams spec cs).size ≤ (bakeParams spec cs).nFull ∧
            (bakeParams spec cs).minCy + (bakeParams spec cs).size ≤ (bakeParams spec cs).nFull)
    (hseg : ∀ seg ∈ spec.wallSegments, ∀ w ∈ bresPoints cs seg,
      (0 ≤ w.1 ∧ 0 ≤ w.2 ∧ w.1 < (bakeParams spec cs).nFull ∧ w.2 < (bakeParams spec cs).nFull) →
      ((bakeParams spec cs).minCx - segT cs seg ≤ w.1 ∧
        w.1 < (bakeParams spec cs).minCx + (bakeParams spec cs).size + segT cs seg ∧
        (bakeParams spec cs).minCy - segT cs seg ≤ w.2 ∧
        w.2 < (bakeParams spec cs).minCy + (bakeParams spec cs).size + segT cs seg) →
      ((bakeParams spec cs).minCx ≤ w.1 ∧ w.1 < (bakeParams spec cs).minCx + (bakeParams spec cs).size ∧
        (bakeParams spec cs).minCy ≤ w.2 ∧ w.2 < (bakeParams spec cs).minCy + (bakeParams spec cs).size))
    (hl : cellIn (bakeParams spec cs).size lx ly) :
    (bakeGridFromSpec spec cs).blocked lx ly =
      (bakeGridUncropped spec cs).blocked
        ((bakeParams spec cs).minCx + lx) ((bakeParams spec cs).minCy + ly) := by
  set p := bakeParams spec cs with hp
  have hx0 := bakeParams_minCx_nonneg spec cs
  have hy0 := bakeParams_minCy_nonneg spec cs
  rw [← hp] at hx0 hy0
  obtain ⟨hl1, hl2, hl3, hl4⟩ := hl
  -- boundary pass agrees on corresponding cells
  have hbound : boundaryBlocked spec cs p lx ly =
      boundaryBlocked spec cs { p with useCrop := false, size := p.nFull }
        (p.minCx + lx) (p.minCy + ly) := by
    unfold boundaryBlocked
    have hg1 : ¬ (lx < 0 ∨ ly < 0 ∨ lx ≥ p.size ∨ ly ≥ p.size) := by omega
    have hg2 : ¬ (p.minCx + lx < 0 ∨ p.minCy + ly < 0 ∨
        p.minCx + lx ≥ p.nFull ∨ p.minCy + ly ≥ p.nFull) := by omega
    simp [hg1, hg2, hc]
  rw [Bool.eq_iff_iff]
  rw [bakeGridFromSpec_blocked spec cs hc, bakeGridUncropped_blocked spec cs]
  rw [← hp, bake_fold_eq_true, bake_fold_eq_true, hbound]
  constructor
  · rintro (h | ⟨seg, hs, w, hw, loc, hloc, h1, h2, hin⟩)
    · exact Or.inl h
    · rw [worldToLocalCropped_eq_some] at hloc
      obtain ⟨rfl, hc1, hc2, hc3, hc4⟩ := hloc
      refine Or.inr ⟨seg, hs, w, hw, (w.1, w.2), ?_, ?_, ?_, ?_⟩
      · rw [worldToLocalFull_eq_some]
        exact ⟨rfl, by omega, by omega, by omega, by omega⟩
      · dsimp only at h1 ⊢
        rw [abs_le] at h1 ⊢
        omega
      · dsimp only at h2 ⊢
        rw [abs_le] at h2 ⊢
        omega
      · unfold cellIn at hin ⊢
        omega
  · rintro (h | ⟨seg, hs, w, hw, loc, hloc, h1, h2, hin⟩)
    · exact Or.inl h
    · rw [worldToLocalFull_eq_some] at hloc
      obtain ⟨rfl, hf1, hf2, hf3, hf4⟩ := hloc
      have habs1 : |p.minCx + lx - w.1| ≤ segT cs seg := h1
      have habs2 : |p.minCy + ly - w.2| ≤ segT cs seg := h2
      rw [abs_le] at habs1 habs2
      have hcrop := hseg seg hs w hw ⟨hf1, hf3, hf2, hf4⟩ (by omega)
      refine Or.inr ⟨seg, hs, w, hw, (w.1 - p.minCx, w.2 - p.minCy), ?_, ?_, ?_, ?_⟩
      · rw [worldToLocalCropped_eq_some]
        exact ⟨rfl, by omega, by omega, by omega, by omega⟩
      · dsimp only
        rw [abs_le]
        omega
      · dsimp only
        rw [abs_le]
        omega
      · exact ⟨hl1, hl2, hl3, hl4⟩

/-- Concrete spec with an in-crop wall segment, satisfying the side
conditions of the amended crop-equivalence theorem. -/
def cropOkSpec : MapSpecV1 :=
  { cropClipSpec with wallSegments := [⟨⟨50, 50⟩, ⟨50, 50⟩, 1, some WallTag.spoke⟩] }

/-- Claim C6 counterexample: for `cropClipSpec` at cell size 5 the bake
crops (origin `(2,2)`, size 17), and the in-bounds local cell `(1, 8)`
— world cell `(3, 10)` — is walkable in the cropped grid but blocked in
the uncropped grid: the segment's Bresenham point `(1, 10)` lies
outside the crop, so its thickness stamp is dropped entirely by the
cropped bake while the uncropped bake stamps it. -/
theorem bake_crop_equivalence_counterexample :
    (bakeParams cropClipSpec 5).useCrop = true
    ∧ (bakeGridFromSpec cropClipSpec 5).origin = some (2, 2)
    ∧ (bakeGridFromSpec cropClipSpec 5).size = 17
    ∧ cellIn (bakeGridFromSpec cropClipSpec 5).size 1 8
    ∧ (bakeGridFromSpec cropClipSpec 5).blocked 1 8 = false
    ∧ (bakeGridUncropped cropClipSpec 5).blocked (2 + 1) (2 + 8) = true :=
  ⟨by decide, by decide, by decide, by decide, by decide, by decide⟩

theorem bake_crop_equivalence_amended_witness :
    ((bakeParams cropOkSpec 5).useCrop = true)
    ∧ ((bakeParams cropOkSpec 5).minCx + (bakeParams cropOkSpec 5).size ≤ (bakeParams cropOkSpec 5).nFull ∧
        (bakeParams cropOkSpec 5).minCy + (bakeParams cropOkSpec 5).size ≤ (bakeParams cropOkSpec 5).nFull)
    ∧ (∀ seg ∈ cropOkSpec.wallSegments, ∀ w ∈ bresPoints 5 seg,
        (0 ≤ w.1 ∧ 0 ≤ w.2 ∧ w.1 < (bakeParams cropOkSpec 5).nFull ∧ w.2 < (bakeParams cropOkSpec 5).nFull) →
        ((bakeParams cropOkSpec 5).minCx - segT 5 seg ≤ w.1 ∧
          w.1 < (bakeParams cropOkSpec 5).minCx + (bakeParams cropOkSpec 5).size + segT 5 seg ∧
          (bakeParams cropOkSpec 5).minCy - segT 5 seg ≤ w.2 ∧
          w.2 < (bakeParams cropOkSpec 5).minCy + (bakeParams cropOkSpec 5).size + segT 5 seg) →
        ((bakeParams cropOkSpec 5).minCx ≤ w.1 ∧
          w.1 < (bakeParams cropOkSpec 5).minCx + (bakeParams cropOkSpec 5).size ∧
          (bakeParams cropOkSpec 5).minCy ≤ w.2 ∧
          w.2 < (bakeParams cropOkSpec 5).minCy + (bakeParams cropOkSpec 5).size))
    ∧ cellIn (bakeParams cropOkSpec 5).size 1 8
    ∧ ((bakeGridFromSpec cropOkSpec 5).blocked 1 8 =
        (bakeGridUncropped cropOkSpec 5).blocked
          ((bakeParams cropOkSpec 5).minCx + 1) ((bakeParams cropOkSpec 5).minCy + 8)) :=
  ⟨by decide, by decide, by decide, by decide,
    bake_crop_equivalence_amended cropOkSpec 5 1 8 (by decide) (by decide) (by decide) (by decide)⟩

/-- Off-center spec showing the crop-fits-in-full-grid proviso of the
amended crop-equivalence claim is forced and not incidental: the crop
is squared up to the larger of its two extents (`size = max(...)`), so
for an arena near a grid edge the crop square reaches world cells
beyond the full grid.  Here the degenerate wall's cell `(100, 50)` lies
outside the 100-cell full grid (dropped whole by the uncropped bake)
but inside the overflowing crop square, so its stamp blocks the
in-crop, in-full-grid world cell `(99, 50)` only in the cropped grid. -/
def cropOverflowSpec : MapSpecV1 :=
  { v := 1
    seed := "overflow"
    size := 100
    center := ⟨95, 50⟩
    rings := some 3
    ringRadii := [15]
    segments := 8
    spokes := 0
    spawnZones := []
    objective := ⟨⟨95, 50⟩, 5⟩
    wallSegments := [⟨⟨100, 50⟩, ⟨100, 50⟩, 2, some WallTag.spoke⟩]
    cover := [] }

/-- For `cropOverflowSpec` at cell size 1 the bake crops with origin
`(65, 20)` and square size 61, the Bresenham proviso of the amended
claim holds (its only wall point is outside the full grid), the
crop-fits-in-full-grid proviso fails (`65 + 61 > 100`), and crop
equivalence indeed fails at local cell `(34, 30)` = world `(99, 50)`:
blocked cropped, walkable uncropped.  So the amendment needs both
provisos. -/
theorem bake_crop_square_overflow_inequivalence :
    (bakeParams cropOverflowSpec 1).useCrop = true
    ∧ (bakeGridFromSpec cropOverflowSpec 1).origin = some (65, 20)
    ∧ (bakeGridFromSpec cropOverflowSpec 1).size = 61
    ∧ (∀ seg ∈ cropOverflowSpec.wallSegments, ∀ w ∈ bresPoints 1 seg,
        (0 ≤ w.1 ∧ 0 ≤ w.2 ∧ w.1 < (bakeParams cropOverflowSpec 1).nFull ∧
          w.2 < (bakeParams cropOverflowSpec 1).nFull) →
        ((bakeParams cropOverflowSpec 1).minCx - segT 1 seg ≤ w.1 ∧
          w.1 < (bakeParams cropOverflowSpec 1).minCx + (bakeParams cropOverflowSpec 1).size + segT 1 seg ∧
          (bakeParams cropOverflowSpec 1).minCy - segT 1 seg ≤ w.2 ∧
          w.2 < (bakeParams cropOverflowSpec 1).minCy + (bakeParams cropOverflowSpec 1).size + segT 1 seg) →
        ((bakeParams cropOverflowSpec 1).minCx ≤ w.1 ∧
          w.1 < (bakeParams cropOverflowSpec 1).minCx + (bakeParams cropOverflowSpec 1).size ∧
          (bakeParams cropOverflowSpec 1).minCy ≤ w.2 ∧
          w.2 < (bakeParams cropOverflowSpec 1).minCy + (bakeParams cropOverflowSpec 1).size))
    ∧ ¬ ((bakeParams cropOverflowSpec 1).minCx + (bakeParams cropOverflowSpec 1).size ≤
          (bakeParams cropOverflowSpec 1).nFull ∧
        (bakeParams cropOverflowSpec 1).minCy + (bakeParams cropOverflowSpec 1).size ≤
          (bakeParams cropOverflowSpec 1).nFull)
    ∧ cellIn (bakeGridFromSpec cropOverflowSpec 1).size 34 30
    ∧ (bakeGridFromSpec cropOverflowSpec 1).blocked 34 30 = true
    ∧ (bakeGridUncropped cropOverflowSpec 1).blocked (65 + 34) (20 + 30) = false :=
  ⟨by decide, by decide, by decide, by decide, by decide, by decide, by decide, by decide⟩

/-! ## Arena spec generator (`generateArenaSpec.ts`, 4/5-ring variant) -/

/-- `Math.cos` / `Math.sin` are implementation-defined in JS (bit-exact
values vary across engines), so the generator is parametrized by them;
each is some exact rational function on doubles. -/
structure MathImpl where
  cos : ℚ → ℚ
  sin : ℚ → ℚ

/-- The exact double value of `Math.PI`. -/
def jsPi : ℚ := 884279719003555 / 281474976710656

def degToRad (d : ℚ) : ℚ := d * jsPi / 180

def polar (m : MathImpl) (center : Vec2) (radius deg : ℚ) : Vec2 :=
  let a := degToRad deg
  ⟨center.x + m.cos a * radius, center.y + m.sin a * radius⟩

/-- The TS option type `rings?: 3 | 4 | 5`. -/
inductive RingsOpt where
  | three
  | four
  | five
deriving DecidableEq, Repr

def RingsOpt.toQ : RingsOpt → ℚ
  | .three => 3
  | .four => 4
  | .five => 5

/-- Generator options (`size?`, `rings?`, `teams?`); `teams` is never
read by the generator body. -/
structure Opts where
  size : Option ℚ
  rings : Option RingsOpt
  teams : Option ℕ

/-- Iteration count of `for (let i = 0; i < q; i++)` with numeric bound. -/
def qIters (q : ℚ) : ℕ := (max 0 ⌈q⌉).toNat

/-- `rectsOverlap`. -/
def rectsOverlap (a b : Rect) : Bool :=
  ! (decide (a.x + a.w ≤ b.x) || decide (b.x + b.w ≤ a.x) ||
     decide (a.y + a.h ≤ b.y) || decide (b.y + b.h ≤ a.y))

def rectCenter (r : Rect) : Vec2 := ⟨r.x + r.w / 2, r.y + r.h / 2⟩

/-- `dist(a, b) > c` (exact model of the `Math.sqrt` comparison). -/
def distGt (a b : Vec2) (c : ℚ) : Bool :=
  sqrtGt ((a.x - b.x) * (a.x - b.x) + (a.y - b.y) * (a.y - b.y)) c

/-- `dist(a, b) < c`. -/
def distLt (a b : Vec2) (c : ℚ) : Bool :=
  sqrtLt ((a.x - b.x) * (a.x - b.x) + (a.y - b.y) * (a.y - b.y)) c

/-- `spawnRectAtAngle`. -/
def spawnRectAtAngle (m : MathImpl) (size : ℚ) (center : Vec2)
    (outerR angleDeg padW padH : ℚ) : Rect :=
  let inward : ℚ := max 6 ((⌊padH / 2⌋ : ℤ) : ℚ)
  let p := polar m center (outerR - inward) angleDeg
  let x : ℚ := ((jsRound (p.x - padW / 2) : ℤ) : ℚ)
  let y : ℚ := ((jsRound (p.y - padH / 2) : ℤ) : ℚ)
  ⟨clamp x 2 (size - padW - 2), clamp y 2 (size - padH - 2), padW, padH⟩

/-- `addRing`: one chord wall per non-gate arc index. -/
def addRing (m : MathImpl) (segs : List WallSegment) (center : Vec2)
    (radius segments thickness : ℚ) (gates : List ℚ) (tag : WallTag) : List WallSegment :=
  (List.range (qIters segments)).foldl
    (fun segs i =>
      if gates.contains ((i : ℕ) : ℚ) then segs
      else
        let a0 := ((i : ℕ) : ℚ) * 360 / segments
        let a1 := (((i : ℕ) : ℚ) + 1) * 360 / segments
        segs ++ [⟨polar m center radius a0, polar m center radius a1, thickness, some tag⟩])
    segs

/-- The ring-radius loop `for (let i = 1; i < numRings; i++)`.  A `none`
ring count (JS `undefined`) makes the loop guard false immediately; the
fuel (5 at every call site) dominates the bound `numRings ≤ 5`. -/
def buildRingRadiiAux (mq ringGapBase : ℚ) :
    ℕ → ℚ → ℚ → List ℚ → Rng → (List ℚ × Rng)
  | 0, _, _, acc, rng => (acc, rng)
  | fuel + 1, i, rPrev, acc, rng =>
    if i < mq then
      let j := Rng.int rng (-2) 3
      let gap := if i ≥ mq - 1 then (ringGapBase + j.1) * (7/10) else ringGapBase + j.1
      let rNext := clamp (rPrev - gap) (if i = mq - 1 then 16 else 20) (rPrev - 6)
      buildRingRadiiAux mq ringGapBase fuel (i + 1) rNext (acc ++ [rNext]) j.2
    else (acc, rng)

def buildRingRadii (numRings : Option ℚ) (r0 ringGapBase : ℚ) (rng : Rng) : List ℚ × Rng :=
  match numRings with
  | none => ([r0], rng)
  | some mq => buildRingRadiiAux mq ringGapBase 5 1 r0 [r0] rng

/-- JS `Set.add` keeping insertion order and distinctness. -/
def setAdd (s : List ℚ) (x : ℚ) : List ℚ := if s.contains x then s else s ++ [x]

/-- The `while (s.size < count)` fill of `spreadGates`.  The JS loop
terminates only with probability 1 (it waits for enough distinct draws),
so the model bounds it by fuel; no claim depends on the gate set. -/
def spreadGatesFill (segments count : ℚ) : ℕ → List ℚ → Rng → (List ℚ × Rng)
  | 0, s, rng => (s, rng)
  | fuel + 1, s, rng =>
    if (s.length : ℚ) < count then
      let j := Rng.int rng 0 (segments - 1)
      spreadGatesFill segments count fuel (setAdd s j.1) j.2
    else (s, rng)

/-- `spreadGates`: one seeded gate per quadrant, then random fills. -/
def spreadGates (segments count : ℚ) (rng : Rng) : List ℚ × Rng :=
  let step : ℚ := max 1 ((⌊segments / 4⌋ : ℤ) : ℚ)
  let st := [(0 : ℚ), 1, 2, 3].foldl
    (fun (st : List ℚ × Rng) q =>
      let j := Rng.int st.2 0 (max 0 (step - 1))
      (setAdd st.1 (jsMod (q * step + j.1) segments), j.2))
    ([], rng)
  spreadGatesFill segments count 1000 st.1 st.2

/-- Array element swap of Fisher–Yates.  An out-of-range `j` (possible
only when `float()` returns exactly 1) would write `undefined` in JS;
modelled as a no-op. -/
def listSwap {α : Type} (l : List α) (i j : ℕ) : List α :=
  match l.get? i, l.get? j with
  | some a, some b => (l.set i b).set j a
  | _, _ => l

/-- Index view of an integer-valued `rng.int` result. -/
def qToIdx (q : ℚ) : ℕ := q.num.toNat

/-- Fisher–Yates downward loop (`for (let i = n-1; i > 0; i--)`). -/
def shuffleLoop {α : Type} : ℕ → List α → Rng → (List α × Rng)
  | 0, out, rng => (out, rng)
  | i + 1, out, rng =>
    let j := Rng.int rng 0 (((i + 1 : ℕ) : ℚ))
    shuffleLoop i (listSwap out (i + 1) (qToIdx j.1)) j.2

/-- `shuffle(arr)`: copy then Fisher–Yates via `int`. -/
def Rng.shuffle {α : Type} (r : Rng) (arr : List α) : List α × Rng :=
  shuffleLoop (arr.length - 1) arr r

/-- The per-team placement retry loop (bounded at 20 attempts; on
exhaustion the last attempted rect is kept). -/
def placeSpawnLoop (m : MathImpl) (size : ℚ) (center : Vec2)
    (r0 padW padH angle0 : ℚ) (existing : List SpawnZone) :
    ℕ → Rect → Rng → (Rect × Rng)
  | 0, rect, rng => (rect, rng)
  | fuel + 1, rect, rng =>
    let overlaps := existing.any (fun s => rectsOverlap rect s.rect)
    let farEnough := existing.all (fun s => distGt (rectCenter rect) (rectCenter s.rect) 30)
    if !overlaps && farEnough then (rect, rng)
    else
      let j := Rng.int rng (-18) 18
      let jittered := jsMod (angle0 + j.1 + 360) 360
      placeSpawnLoop m size center r0 padW padH angle0 existing fuel
        (spawnRectAtAngle m size center r0 jittered padW padH) j.2

/-- Expanded-spawn test of `isInsideSpawn`. -/
def insideSpawnExpanded (p : Vec2) (s : SpawnZone) : Bool :=
  decide (p.x ≥ s.rect.x - 2) && decide (p.x ≤ s.rect.x + s.rect.w + 2) &&
  decide (p.y ≥ s.rect.y - 2) && decide (p.y ≤ s.rect.y + s.rect.h + 2)

/-- The cover scatter loop; rejected samples consume only the first two
`int` calls of their iteration, accepted ones also consume the radius
`int` and the kind `pick`. -/
def coverLoop (m : MathImpl) (size : ℚ) (center : Vec2)
    (innerR r0 objectiveRadius : ℚ) (spawnZones : List SpawnZone) :
    ℕ → List Cover → Rng → (List Cover × Rng)
  | 0, acc, rng => (acc, rng)
  | fuel + 1, acc, rng =>
    let rr := Rng.int rng (innerR + 6) (r0 - 10)
    let aa := Rng.int rr.2 0 359
    let p := polar m center rr.1 aa.1
    let pp : Vec2 := ⟨clamp ((jsRound p.x : ℤ) : ℚ) 2 (size - 3),
                      clamp ((jsRound p.y : ℤ) : ℚ) 2 (size - 3)⟩
    if distLt pp center (objectiveRadius + 10) then
      coverLoop m size center innerR r0 objectiveRadius spawnZones fuel acc aa.2
    else if spawnZones.any (insideSpawnExpanded pp) then
      coverLoop m size center innerR r0 objectiveRadius spawnZones fuel acc aa.2
    else
      let rad := Rng.int aa.2 1 2
      let k := Rng.pick rad.2 ["pillar", "crate", "lowwall"]
      coverLoop m size center innerR r0 objectiveRadius spawnZones fuel
        (acc ++ [⟨pp, rad.1, k.1⟩]) k.2

/-- `generateArenaSpec` (the 4/5-ring variant of
`src/server/procgen/generateArenaSpec.ts`), with the RNG threaded
explicitly in source call order. -/
def generateArenaSpec (m : MathImpl) (seed : String) (opts : Opts) : MapSpecV1 :=
  let size := opts.size.getD 250
  let rng0 := Rng.ofSeed seed
  let center : Vec2 := ⟨((⌊size / 2⌋ : ℤ) : ℚ), ((⌊size / 2⌋ : ℤ) : ℚ)⟩
  -- outerRadius = clamp(Math.floor(size * 0.40) + rng.int(-6, 8), 85, Math.floor(size / 2) - 6)
  let j1 := Rng.int rng0 (-6) 8
  let outerRadius := clamp (((⌊size * (2/5)⌋ : ℤ) : ℚ) + j1.1) 85 (((⌊size / 2⌋ : ℤ) : ℚ) - 6)
  -- numRings = (opts.rings ?? rng.pick([4, 5]))
  let nr : Option ℚ × Rng := match opts.rings with
    | some r => (some r.toQ, j1.2)
    | none => Rng.pick j1.2 [(4 : ℚ), 5]
  let numRings := nr.1
  let g1 := Rng.int nr.2 10 18
  let ringGapBase := g1.1
  let r0 := outerRadius
  let rr := buildRingRadii numRings r0 ringGapBase g1.2
  let ringRadii := rr.1
  let innerR := ringRadii.getLastD 0
  let sg := Rng.int rr.2 24 36
  let segments := sg.1
  let sp := Rng.int sg.2 6 12
  let spokes := sp.1
  let wt := Rng.int sp.2 2 3
  let wallThickness := wt.1
  -- rings with gates
  let ringsDone := ringRadii.enum.foldl
    (fun (st : List WallSegment × Rng) iv =>
      let i := iv.1
      let gc : ℚ × Rng :=
        if i = 0 then Rng.int st.2 4 6
        else
          let c := Rng.int st.2 3 5
          (max 3 (c.1 - (i : ℚ)), c.2)
      let gates := spreadGates segments gc.1 gc.2
      let tag := if i = 0 then WallTag.perimeter else WallTag.ring
      (addRing m st.1 center iv.2 segments wallThickness gates.1 tag, gates.2))
    (([] : List WallSegment), wt.2)
  -- spokes
  let ba := Rng.shuffle ringsDone.2
    [(0 : ℚ), 60, 120, 180, 240, 300, 30, 90, 150, 210, 270, 330]
  let baseAngles := ba.1
  let sa := (List.range (qIters spokes)).foldl
    (fun (st : List ℚ × Rng) i =>
      let j := Rng.int st.2 (-12) 12
      let a := baseAngles.getD (i % baseAngles.length) 0 + j.1
      (st.1 ++ [jsMod (a + 360) 360], j.2))
    (([] : List ℚ), ba.2)
  let spokeAngles := sa.1
  let spokesDone := spokeAngles.foldl
    (fun (st : List WallSegment × Rng) a =>
      let s1 := Rng.int st.2 6 12
      let startR := r0 - s1.1
      let e1 := Rng.int s1.2 2 8
      let endR := innerR + e1.1
      let p0 := polar m center startR a
      let p1 := polar m center endR a
      let bb := Rng.bool e1.2 (1/2)
      if bb.1 then
        let gp := Rng.int bb.2 6 12
        let midR := (startR + endR) / 2
        let pA := polar m center (midR + gp.1 / 2) a
        let pB := polar m center (midR - gp.1 / 2) a
        (st.1 ++ [⟨p0, pA, wallThickness, some WallTag.spoke⟩,
                  ⟨pB, p1, wallThickness, some WallTag.spoke⟩], gp.2)
      else
        (st.1 ++ [⟨p0, p1, wallThickness, some WallTag.spoke⟩], bb.2))
    (ringsDone.1, sa.2)
  -- objective
  let ob := Rng.int spokesDone.2 6 10
  let objectiveRadius := ob.1
  let objective : ObjectiveZone := ⟨center, objectiveRadius⟩
  -- inner maze spurs
  let ims := Rng.int ob.2 3 6
  let innerMazeSpokes := ims.1
  let sh8 := Rng.shuffle ims.2 [(0 : ℚ), 45, 90, 135, 180, 225, 270, 315]
  let innerMazeAngles := sh8.1.take (qIters innerMazeSpokes)
  let mazeDone := innerMazeAngles.foldl
    (fun (st : List WallSegment × Rng) a =>
      let ja := Rng.int st.2 (-12) 12
      let aDeg := jsMod (a + ja.1 + 360) 360
      let si := Rng.int ja.2 2 4
      let startR := innerR - si.1
      let ei := Rng.int si.2 6 11
      let endR := innerR - ei.1
      if endR < objectiveRadius + 5 then (st.1, ei.2)
      else
        let p0 := polar m center startR aDeg
        let p1 := polar m center endR aDeg
        (st.1 ++ [⟨p0, p1, wallThickness, some WallTag.spoke⟩], ei.2))
    (spokesDone.1, sh8.2)
  let wallSegments := mazeDone.1
  -- spawn pads
  let pw := Rng.int mazeDone.2 10 14
  let padW := pw.1
  let ph := Rng.int pw.2 10 14
  let padH := ph.1
  let an := [(0 : ℚ), 90, 180, 270].foldl
    (fun (st : List ℚ × Rng) a =>
      let j := Rng.int st.2 (-22) 22
      (st.1 ++ [jsMod (a + j.1 + 360) 360], j.2))
    (([] : List ℚ), ph.2)
  let spawnAngles := an.1
  let zs := (List.range 4).foldl
    (fun (st : List SpawnZone × Rng) teamId =>
      let angle0 := spawnAngles.getD teamId 0
      let rect0 := spawnRectAtAngle m size center r0 angle0 padW padH
      let pl := placeSpawnLoop m size center r0 padW padH angle0 st.1 20 rect0 st.2
      (st.1 ++ [⟨teamId, pl.1, jsMod (angle0 + 180) 360⟩], pl.2))
    (([] : List SpawnZone), an.2)
  let spawnZones := zs.1
  -- cover
  let cc := Rng.int zs.2 100 145
  let coverCount := cc.1
  let cov := coverLoop m size center innerR r0 objectiveRadius spawnZones
    (qIters coverCount) [] cc.2
  { v := 1
    seed := seed
    size := size
    center := center
    rings := numRings
    ringRadii := ringRadii
    segments := segments
    spokes := spokes
    spawnZones := spawnZones
    objective := objective
    wallSegments := wallSegments
    cover := cov.1 }

/-- Concrete math implementation for witnesses (any exact rational
function is a valid instance of the implementation-defined trig). -/
def flatMath : MathImpl := ⟨fun _ => 1, fun _ => 0⟩

example : (generateArenaSpec flatMath "t" ⟨none, some RingsOpt.three, some 4⟩).rings = some 3 := by
  decide

example : (generateArenaSpec flatMath "t" ⟨none, some RingsOpt.three, some 4⟩).spawnZones.length = 4 := by
  decide

/-! ## C10: the no-explicit-ring-count variant is always rejected -/

/-- `pick` returns `none` (JS `undefined`) or an element of the array. -/
theorem pick_eq_none_or_mem {α : Type} (r : Rng) (arr : List α) :
    (Rng.pick r arr).1 = none ∨ ∃ a ∈ arr, (Rng.pick r arr).1 = some a := by
  unfold Rng.pick
  split_ifs with hl
  · exact Or.inl rfl
  · unfold jsIndex
    dsimp only
    split_ifs with hi
    · cases hg : arr.get? ((Rng.int r 0 (arr.length - 1)).1).num.toNat with
      | none => exact Or.inl (by simp [hg])
      | some a => exact Or.inr ⟨a, List.get?_mem hg, by simp [hg]⟩
    · exact Or.inl rfl

theorem mem_mkVResult_ok_false {a : String} {l : List String} (h : a ∈ l) :
    (mkVResult l).ok = false := by
  unfold mkVResult
  cases l with
  | nil => cases h
  | cons b t => simp

/-- A spec whose `rings` field differs from `3` fails `validateSpec`. -/
theorem validateSpec_ok_false_of_rings_ne (spec : MapSpecV1) (h : spec.rings ≠ some 3) :
    (validateSpec spec).ok = false := by
  unfold validateSpec
  dsimp only
  apply mem_mkVResult_ok_false (a := "spec.rings must be 3")
  simp [List.mem_append, h]

/-- The `rings` field of a generated spec when no explicit ring count is
given: the result of `rng.pick([4, 5])` on the second RNG draw. -/
theorem generateArenaSpec_rings_default (m : MathImpl) (seed : String) (opts : Opts)
    (h : opts.rings = none) :
    (generateArenaSpec m seed opts).rings =
      (Rng.pick (Rng.int (Rng.ofSeed seed) (-6) 8).2 [(4 : ℚ), 5]).1 := by
  simp only [generateArenaSpec, h]

/-- Claim C10: with no explicit ring-count option the generator picks
its ring count via `rng.pick([4, 5])` (4 or 5, or JS `undefined` in the
`float() = 1` corner), and the structural validator — which requires
`rings === 3` — always rejects the resulting spec. -/
theorem generateArenaSpec_default_always_rejected (m : MathImpl) (seed : String) (opts : Opts)
    (h : opts.rings = none) :
    ((generateArenaSpec m seed opts).rings = some 4 ∨
      (generateArenaSpec m seed opts).rings = some 5 ∨
      (generateArenaSpec m seed opts).rings = none)
    ∧ (validateSpec (generateArenaSpec m seed opts)).ok = false := by
  have hr := generateArenaSpec_rings_default m seed opts h
  have hcases : (generateArenaSpec m seed opts).rings = some 4 ∨
      (generateArenaSpec m seed opts).rings = some 5 ∨
      (generateArenaSpec m seed opts).rings = none := by
    rcases pick_eq_none_or_mem (Rng.int (Rng.ofSeed seed) (-6) 8).2 [(4 : ℚ), 5] with hn | ⟨a, ha, hs⟩
    · exact Or.inr (Or.inr (hr.trans hn))
    · rcases List.mem_pair.mp ha with rfl | rfl
      · exact Or.inl (hr.trans hs)
      · exact Or.inr (Or.inl (hr.trans hs))
  refine ⟨hcases, validateSpec_ok_false_of_rings_ne _ ?_⟩
  rcases hcases with hx | hx | hx <;> rw [hx] <;> simp

theorem generateArenaSpec_default_always_rejected_witness :
    ((⟨none, none, some 4⟩ : Opts).rings = none)
    ∧ (validateSpec (generateArenaSpec flatMath "w10" ⟨none, none, some 4⟩)).ok = false :=
  ⟨rfl, (generateArenaSpec_default_always_rejected flatMath "w10" ⟨none, none, some 4⟩ rfl).2⟩

/-! ## C5: determinism and canonical serialization (`stableStringify`) -/

/-- JSON value tree.  `undef` models JS `undefined`, which
`stableStringify` renders as the bare text `undefined` (the
`JSON.stringify(obj)` of a non-object non-null value, concatenated). -/
inductive Json where
  | null
  | undef
  | bool (b : Bool)
  | num (q : ℚ)
  | str (s : String)
  | arr (items : List Json)
  | obj (fields : List (String × Json))

/-- `JSON.stringify` of a string (quote and escape; the specs serialized
here contain no control characters). -/
def jsonQuote (s : String) : String :=
  "\"" ++ String.mk (s.data.flatMap
    (fun c => if c = '"' then ['\\', '"'] else if c = '\\' then ['\\', '\\'] else [c])) ++ "\""

mutual

/-- `stableStringify`: arrays elementwise, objects with keys sorted
(JS default lexicographic sort, which on the ASCII keys used here is
string `≤`); the number formatter is a parameter (JS shortest
round-trip formatting).  Since object-literal keys are distinct, first
rendering the field values and then sorting the rendered pairs by key
yields the same output as the source's sort-keys-then-render. -/
def stableStringify (numStr : ℚ → String) : Json → String
  | .null => "null"
  | .undef => "undefined"
  | .bool b => if b then "true" else "false"
  | .num q => numStr q
  | .str s => jsonQuote s
  | .arr items => "[" ++ String.intercalate "," (stringifyItems numStr items) ++ "]"
  | .obj fields =>
      "\x7b" ++ String.intercalate ","
        (((stringifyFields numStr fields).mergeSort (fun a b => decide (a.1 ≤ b.1))).map
          (fun kv => jsonQuote kv.1 ++ ":" ++ kv.2)) ++ "\x7d"

def stringifyItems (numStr : ℚ → String) : List Json → List String
  | [] => []
  | j :: t => stableStringify numStr j :: stringifyItems numStr t

def stringifyFields (numStr : ℚ → String) : List (String × Json) → List (String × String)
  | [] => []
  | (k, v) :: t => (k, stableStringify numStr v) :: stringifyFields numStr t

end

/-- JSON encoding of the spec value (field order as constructed; the
canonical serialization sorts keys, so order is irrelevant). -/
def vec2ToJson (v : Vec2) : Json := .obj [("x", .num v.x), ("y", .num v.y)]

def rectToJson (r : Rect) : Json :=
  .obj [("x", .num r.x), ("y", .num r.y), ("w", .num r.w), ("h", .num r.h)]

def spawnZoneToJson (s : SpawnZone) : Json :=
  .obj [("teamId", .num s.teamId), ("rect", rectToJson s.rect), ("facingDeg", .num s.facingDeg)]

def wallTagString : WallTag → String
  | .ring => "ring"
  | .spoke => "spoke"
  | .perimeter => "perimeter"

def wallSegmentToJson (w : WallSegment) : Json :=
  .obj [("a", vec2ToJson w.a), ("b", vec2ToJson w.b), ("thickness", .num w.thickness),
        ("tag", match w.tag with | some t => .str (wallTagString t) | none => .undef)]

def coverToJson (c : Cover) : Json :=
  .obj [("center", vec2ToJson c.center), ("radius", .num c.radius),
        ("kind", match c.kind with | some k => .str k | none => .undef)]

def specToJson (s : MapSpecV1) : Json :=
  .obj
    [ ("v", .num s.v)
    , ("seed", .str s.seed)
    , ("size", .num s.size)
    , ("center", vec2ToJson s.center)
    , ("rings", match s.rings with | some q => .num q | none => .undef)
    , ("ringRadii", .arr (s.ringRadii.map Json.num))
    , ("segments", .num s.segments)
    , ("spokes", .num s.spokes)
    , ("spawnZones", .arr (s.spawnZones.map spawnZoneToJson))
    , ("objective", .obj [("center", vec2ToJson s.objective.center),
                          ("radius", .num s.objective.radius)])
    , ("wallSegments", .arr (s.wallSegments.map wallSegmentToJson))
    , ("cover", .arr (s.cover.map coverToJson)) ]

/-- Claim C5: arena generation is deterministic.  The generator owns an
explicitly threaded RNG and the embedding is a pure function of the
seed, the options and the (implementation-defined but fixed) math
functions, so two generations from the same inputs are the same value
and their canonical key-sorted serializations (hence content hashes)
are byte-identical, for every number formatter. -/
theorem generateArenaSpec_deterministic (numStr : ℚ → String) (m : MathImpl)
    (seed : String) (opts : Opts) :
    generateArenaSpec m seed opts = generateArenaSpec m seed opts
    ∧ stableStringify numStr (specToJson (generateArenaSpec m seed opts)) =
        stableStringify numStr (specToJson (generateArenaSpec m seed opts)) :=
  ⟨rfl, rfl⟩

/-! ## Retry/fallback orchestrators -/

/-- Result record of `generateValidArena`. -/
structure ArenaResult where
  spec : MapSpecV1
  attempt : ℕ
  usedSeed : String
deriving DecidableEq, Repr

/-- `generateValidArena` (`src/server/procgen/generateValidArena.ts`,
3-ring variant; `attempts` defaults to 8 at the call sites). -/
def generateValidArena (m : MathImpl) (seed : String) (attempts : ℕ) : ArenaResult :=
  match (List.range attempts).findSome? (fun i =>
    if (validateSpec (generateArenaSpec m (if i = 0 then seed else seed ++ ":r" ++ toString i)
          ⟨some 250, some RingsOpt.three, some 4⟩)).ok &&
       (validateConnectivity (generateArenaSpec m (if i = 0 then seed else seed ++ ":r" ++ toString i)
          ⟨some 250, some RingsOpt.three, some 4⟩)).ok then
      some ⟨generateArenaSpec m (if i = 0 then seed else seed ++ ":r" ++ toString i)
              ⟨some 250, some RingsOpt.three, some 4⟩,
            i + 1, if i = 0 then seed else seed ++ ":r" ++ toString i⟩
    else none) with
  | some r => r
  | none =>
    ⟨generateArenaSpec m "fallback_v1_size250_rings3" ⟨some 250, some RingsOpt.three, some 4⟩,
      attempts + 1, "fallback_v1_size250_rings3"⟩

theorem findSome_guard {α β : Type} (f : α → β) (p : α → Bool) :
    ∀ l : List α,
      l.findSome? (fun a => if p a then some (f a) else none) = (l.find? p).map f := by
  intro l
  induction l with
  | nil => rfl
  | cons a t ih =>
    by_cases hp : p a = true
    · simp [List.findSome?_cons, List.find?_cons, hp]
    · simp only [Bool.not_eq_true] at hp
      simp [List.findSome?_cons, List.find?_cons, hp, ih]

/-- Claim C2: the orchestrator tries attempts in order with candidate
seed `seed` on attempt 0 and `seed ++ ":r" ++ i` afterwards, and on the
first attempt whose generated spec passes structural then connectivity
validation returns that spec, the candidate seed used, and the 1-based
attempt number (falling back after the budget).  The candidate-seed
sequence is a pure function of the base seed and the attempt index, so
it is identical across runs. -/
theorem generateValidArena_first_success (m : MathImpl) (seed : String) (attempts : ℕ) :
    generateValidArena m seed attempts =
      match (List.range attempts).find? (fun i =>
        (validateSpec (generateArenaSpec m (if i = 0 then seed else seed ++ ":r" ++ toString i)
            ⟨some 250, some RingsOpt.three, some 4⟩)).ok &&
        (validateConnectivity (generateArenaSpec m (if i = 0 then seed else seed ++ ":r" ++ toString i)
            ⟨some 250, some RingsOpt.three, some 4⟩)).ok) with
      | some i =>
          ⟨generateArenaSpec m (if i = 0 then seed else seed ++ ":r" ++ toString i)
              ⟨some 250, some RingsOpt.three, some 4⟩,
            i + 1, if i = 0 then seed else seed ++ ":r" ++ toString i⟩
      | none =>
          ⟨generateArenaSpec m "fallback_v1_size250_rings3" ⟨some 250, some RingsOpt.three, some 4⟩,
            attempts + 1, "fallback_v1_size250_rings3"⟩ := by
  unfold generateValidArena
  rw [findSome_guard
    (fun i => (⟨generateArenaSpec m (if i = 0 then seed else seed ++ ":r" ++ toString i)
        ⟨some 250, some RingsOpt.three, some 4⟩,
      i + 1, if i = 0 then seed else seed ++ ":r" ++ toString i⟩ : ArenaResult))
    (fun i => (validateSpec (generateArenaSpec m (if i = 0 then seed else seed ++ ":r" ++ toString i)
          ⟨some 250, some RingsOpt.three, some 4⟩)).ok &&
        (validateConnectivity (generateArenaSpec m (if i = 0 then seed else seed ++ ":r" ++ toString i)
          ⟨some 250, some RingsOpt.three, some 4⟩)).ok)
    (List.range attempts)]
  cases (List.range attempts).find? _ with
  | none => rfl
  | some i => rfl

/-! ## C3: fallback handling with dev-mode process exit (the
options-object orchestrator variant with logging and `process.exit`) -/

/-- Observable outcome: a normal return or `process.exit(code)`. -/
inductive GenOutcome where
  | returned (spec : MapSpecV1) (attempt : ℕ) (usedSeed : String)
  | exited (code : ℕ)
deriving DecidableEq, Repr

/-- `GenerateValidArenaOptions` (`size?`, `attempts?`). -/
structure GenerateValidArenaOptions where
  size : Option ℕ
  attempts : Option ℕ
deriving DecidableEq, Repr

/-- Normalization of the `number | options` second argument. -/
def optsOfArg : ℕ ⊕ GenerateValidArenaOptions → GenerateValidArenaOptions
  | .inl n => ⟨none, some n⟩
  | .inr o => o

/-- The 16-attempt, 4-ring orchestrator variant: logs an error on
fallback (`console.error` is modelled as the returned log list) and
calls `process.exit(1)` when `NODE_ENV !== "production"` (the `isProd`
parameter). -/
def generateValidArenaV2 (m : MathImpl) (isProd : Bool) (seed : String)
    (attemptsOrOpts : ℕ ⊕ GenerateValidArenaOptions) : GenOutcome × List String :=
  let opts := optsOfArg attemptsOrOpts
  let attempts := opts.attempts.getD 16
  let size := opts.size.getD 250
  let fallback := "fallback_v1_size" ++ toString size ++ "_rings4"
  match (List.range attempts).findSome? (fun i =>
    if (validateSpec (generateArenaSpec m (if i = 0 then seed else seed ++ ":r" ++ toString i)
          ⟨some (size : ℚ), some RingsOpt.four, some 4⟩)).ok &&
       (validateConnectivity (generateArenaSpec m (if i = 0 then seed else seed ++ ":r" ++ toString i)
          ⟨some (size : ℚ), some RingsOpt.four, some 4⟩)).ok then
      some (GenOutcome.returned
        (generateArenaSpec m (if i = 0 then seed else seed ++ ":r" ++ toString i)
          ⟨some (size : ℚ), some RingsOpt.four, some 4⟩)
        (i + 1) (if i = 0 then seed else seed ++ ":r" ++ toString i))
    else none) with
  | some r => (r, [])
  | none =>
    let spec := generateArenaSpec m fallback ⟨some (size : ℚ), some RingsOpt.four, some 4⟩
    if !isProd then
      (GenOutcome.exited 1,
        ["[procgen] fallback triggered", "[procgen] hard fail in dev — no silent fallback"])
    else
      (GenOutcome.returned spec (attempts + 1) fallback, ["[procgen] fallback triggered"])

/-- Claim C3: when every attempt fails validation, the orchestrator
derives one final spec from the fixed fallback seed, whose tag starts
with the fallback marker; it logs an error, and outside production it
terminates the process (exit code 1) instead of returning, while in
production it returns the fallback spec with the fallback seed and
attempt `attempts + 1`. -/
theorem generateValidArenaV2_fallback (m : MathImpl) (isProd : Bool) (seed : String)
    (aoo : ℕ ⊕ GenerateValidArenaOptions)
    (h : ∀ i ∈ List.range ((optsOfArg aoo).attempts.getD 16),
      ((validateSpec (generateArenaSpec m (if i = 0 then seed else seed ++ ":r" ++ toString i)
          ⟨some (((optsOfArg aoo).size.getD 250 : ℕ) : ℚ), some RingsOpt.four, some 4⟩)).ok &&
       (validateConnectivity (generateArenaSpec m (if i = 0 then seed else seed ++ ":r" ++ toString i)
          ⟨some (((optsOfArg aoo).size.getD 250 : ℕ) : ℚ), some RingsOpt.four, some 4⟩)).ok) = false) :
    (∃ rest, ("fallback_v1_size" ++ toString ((optsOfArg aoo).size.getD 250) ++ "_rings4")
        = "fallback" ++ rest)
    ∧ "[procgen] fallback triggered" ∈ (generateValidArenaV2 m isProd seed aoo).2
    ∧ (isProd = false → (generateValidArenaV2 m isProd seed aoo).1 = GenOutcome.exited 1)
    ∧ (isProd = true → (generateValidArenaV2 m isProd seed aoo).1 =
        GenOutcome.returned
          (generateArenaSpec m
            ("fallback_v1_size" ++ toString ((optsOfArg aoo).size.getD 250) ++ "_rings4")
            ⟨some (((optsOfArg aoo).size.getD 250 : ℕ) : ℚ), some RingsOpt.four, some 4⟩)
          (((optsOfArg aoo).attempts.getD 16) + 1)
          ("fallback_v1_size" ++ toString ((optsOfArg aoo).size.getD 250) ++ "_rings4")) := by
  have hsplit : ("fallback_v1_size" ++ toString ((optsOfArg aoo).size.getD 250) ++ "_rings4")
      = "fallback" ++ (("_v1_size" ++ toString ((optsOfArg aoo).size.getD 250)) ++ "_rings4") := by
    simp only [String.append_assoc]
    rw [← String.append_assoc "fallback" "_v1_size"]
    rfl
  have hnone : (List.range ((optsOfArg aoo).attempts.getD 16)).findSome? (fun i =>
      if (validateSpec (generateArenaSpec m (if i = 0 then seed else seed ++ ":r" ++ toString i)
            ⟨some (((optsOfArg aoo).size.getD 250 : ℕ) : ℚ), some RingsOpt.four, some 4⟩)).ok &&
         (validateConnectivity (generateArenaSpec m (if i = 0 then seed else seed ++ ":r" ++ toString i)
            ⟨some (((optsOfArg aoo).size.getD 250 : ℕ) : ℚ), some RingsOpt.four, some 4⟩)).ok then
        some (GenOutcome.returned
          (generateArenaSpec m (if i = 0 then seed else seed ++ ":r" ++ toString i)
            ⟨some (((optsOfArg aoo).size.getD 250 : ℕ) : ℚ), some RingsOpt.four, some 4⟩)
          (i + 1) (if i = 0 then seed else seed ++ ":r" ++ toString i))
      else none) = none := by
    rw [List.findSome?_eq_none_iff]
    intro i hi
    rw [h i hi]
    rfl
  unfold generateValidArenaV2
  dsimp only
  rw [hnone]
  cases isProd with
  | false =>
    refine ⟨⟨_, hsplit⟩, ?_, ?_, ?_⟩
    · simp
    · intro _
      rfl
    · intro hpt
      exact absurd hpt (by decide)
  | true =>
    refine ⟨⟨_, hsplit⟩, ?_, ?_, ?_⟩
    · simp
    · intro hpf
      exact absurd hpf (by decide)
    · intro _
      rfl

/-- Concrete zero-attempt options value for the C3 witness. -/
def aooZero : ℕ ⊕ GenerateValidArenaOptions := Sum.inr ⟨none, some 0⟩

theorem generateValidArenaV2_fallback_witness :
    (∀ i ∈ List.range ((optsOfArg aooZero).attempts.getD 16),
      ((validateSpec (generateArenaSpec flatMath (if i = 0 then "s" else "s" ++ ":r" ++ toString i)
          ⟨some (((optsOfArg aooZero).size.getD 250 : ℕ) : ℚ), some RingsOpt.four, some 4⟩)).ok &&
       (validateConnectivity (generateArenaSpec flatMath (if i = 0 then "s" else "s" ++ ":r" ++ toString i)
          ⟨some (((optsOfArg aooZero).size.getD 250 : ℕ) : ℚ), some RingsOpt.four, some 4⟩)).ok) = false)
    ∧ (generateValidArenaV2 flatMath false "s" aooZero).1 = GenOutcome.exited 1
    ∧ "[procgen] fallback triggered" ∈ (generateValidArenaV2 flatMath false "s" aooZero).2
    ∧ (generateValidArenaV2 flatMath true "s" aooZero).1 =
        GenOutcome.returned
          (generateArenaSpec flatMath
            ("fallback_v1_size" ++ toString ((optsOfArg aooZero).size.getD 250) ++ "_rings4")
            ⟨some (((optsOfArg aooZero).size.getD 250 : ℕ) : ℚ), some RingsOpt.four, some 4⟩)
          (((optsOfArg aooZero).attempts.getD 16) + 1)
          ("fallback_v1_size" ++ toString ((optsOfArg aooZero).size.getD 250) ++ "_rings4") := by
  have hvac : ∀ i ∈ List.range ((optsOfArg aooZero).attempts.getD 16),
      ((validateSpec (generateArenaSpec flatMath (if i = 0 then "s" else "s" ++ ":r" ++ toString i)
          ⟨some (((optsOfArg aooZero).size.getD 250 : ℕ) : ℚ), some RingsOpt.four, some 4⟩)).ok &&
       (validateConnectivity (generateArenaSpec flatMath (if i = 0 then "s" else "s" ++ ":r" ++ toString i)
          ⟨some (((optsOfArg aooZero).size.getD 250 : ℕ) : ℚ), some RingsOpt.four, some 4⟩)).ok) = false := by
    intro i hi
    simp [aooZero, optsOfArg] at hi
  refine ⟨hvac, ?_, ?_, ?_⟩
  · exact (generateValidArenaV2_fallback flatMath false "s" aooZero hvac).2.2.1 rfl
  · exact (generateValidArenaV2_fallback flatMath false "s" aooZero hvac).2.1
  · exact (generateValidArenaV2_fallback flatMath true "s" aooZero hvac).2.2.2 rfl

end Patternisle
